import Mathlib

/-!
Shallow embedding of `src/app.py` (a single-file Streamlit retrieval-augmented
chatbot).  Streamlit executes the whole script top to bottom on every user
interaction ("rerun"); only `st.session_state` and `st.cache_resource` survive
between reruns.  We model one rerun as a pure function from the external
environment, the cache state, the persisted session state and the optional
submitted query to a trace of externally observable effects plus an outcome.
External libraries (FAISS, HuggingFace embeddings, the Gemini LLM, the text
splitter) are modelled as abstract functions supplied by the environment.
-/

namespace EChat

/-- A LangChain `Document`: page content plus string metadata. -/
structure Document where
  page_content : String
  metadata : List (String × String)
  deriving Repr, DecidableEq

/-- Python `dict.get(key, default)` over the metadata association list. -/
def metaGet (m : List (String × String)) (k dflt : String) : String :=
  match m.find? (fun p => p.1 == k) with
  | some p => p.2
  | none => dflt

/-- The result dictionary of a `ConversationalRetrievalChain` call with
`return_source_documents=True` and `output_key="answer"`. -/
structure QAResult where
  answer : String
  source_documents : List Document
  deriving Repr, DecidableEq

/-- The external world the script runs against: the Streamlit secrets store,
the handbook file (whose read may fail), and the behaviour of the
library-owned text splitter, retriever and hosted LLM.  The LLM may raise. -/
structure Env where
  secrets : List (String × String)
  handbook : Except String String
  splitFn : Nat → Nat → String → List String
  retrieveFn : String → List Document
  llmFn : List Document → List (String × String) → String → Except String String

/-- Python `"k" in st.secrets` / `st.secrets["k"]`, as one lookup. -/
def lookupSecret (secrets : List (String × String)) (k : String) : Option String :=
  match secrets.find? (fun p => p.1 == k) with
  | some p => some p.2
  | none => none

/-- Python `str.strip()` on the page content (whitespace at both ends). -/
def pyStrip (s : String) : String := s.trim

/-- Python slicing `s[:n]`: the first `n` characters, or all of `s` when it
is shorter. -/
def pySlice (n : Nat) (s : String) : String := (s.toList.take n).asString

/-- Python `len` on a string (number of characters). -/
def pyLen (s : String) : Nat := s.toList.length

/-- Modelled from the spec: the internals of LangChain's
`ConversationalRetrievalChain` (library code, not part of `src/`).  Invoked as
`qa_chain({"question": user_query})`, it retrieves documents for the question
and forwards them, together with the wired memory's chat history, to the
hosted LLM; with `return_source_documents=True` the retrieved documents are
returned alongside the answer.  An LLM failure propagates as an exception. -/
def qaChainCall (env : Env) (memHist : List (String × String)) (question : String) :
    Except String QAResult :=
  let docs := env.retrieveFn question
  match env.llmFn docs memHist question with
  | Except.ok ans => Except.ok ⟨ans, docs⟩
  | Except.error e => Except.error e

/-- Externally observable effects of one rerun of the script, in program
order.  UI effects render through Streamlit; `llmCall` is the remote HTTP
call to the hosted model, carrying exactly what is forwarded to it;
`readFile` is the handbook read; the `make*`, `splitText`, `embedChunks`,
`buildIndex` effects are the in-process library constructions. -/
inductive Effect where
  | setPageConfig (title : String)
  | setEnv (key val : String)
  | stError (msg : String)
  | makeEmbeddings (model : String)
  | readFile (path : String)
  | splitText (chunk_size chunk_overlap chunks : Nat)
  | embedChunks (chunks : Nat)
  | buildIndex (chunks : Nat)
  | makeRetriever (search_type : String) (k fetch_k : Nat)
  | makeLLM (model : String)
  | makeMemory
  | makeChain
  | stTitle (s : String)
  | stMarkdown (s : String)
  | chatInput
  | chatMessage (role avatar content : String)
  | spinner (msg : String)
  | llmCall (docs : List Document) (chat_history : List (String × String)) (question : String)
  | expander (label : String)
  | stCode (content language : String)
  | stException (err : String)
  deriving Repr, DecidableEq

/-- How one rerun ends: normally (with the session chat history it leaves
behind), via `st.stop()`, or with an uncaught exception. -/
inductive Outcome where
  | completed (chat_history : List (String × String))
  | stopped
  | crashed (err : String)
  deriving Repr, DecidableEq

/-- The welcome markdown shown under the title. -/
def welcomeText : String :=
  "\nWelcome! This GenAI assistant helps GitLab team members and future employees learn about:\n- 📘 GitLab's Handbook (culture, engineering, async, etc.)\n- 🧭 GitLab's Product Direction (strategy, themes, FY25+)\n\nJust ask your question below and the chatbot will find answers from official GitLab docs.\n"

/-- Replaying the persisted conversation: one user and one assistant chat
message per stored pair. -/
def replayEffects (history : List (String × String)) : List Effect :=
  history.foldr
    (fun p acc => Effect.chatMessage "user" "🧑" p.1 :: Effect.chatMessage "assistant" "🤖" p.2 :: acc)
    []

/-- The markdown header shown for one source document:
`f"**{meta.get('source', 'Unknown')} →** `{meta.get('section', 'N/A')}`"`. -/
def srcHeader (doc : Document) : String :=
  "**" ++ metaGet doc.metadata "source" "Unknown" ++ " →** `" ++
    metaGet doc.metadata "section" "N/A" ++ "`"

/-- What the sources expander renders for one retrieved document: its
metadata header and `st.code(doc.page_content.strip()[:700] + "...")`. -/
def sourceDocEffects (doc : Document) : List Effect :=
  [Effect.stMarkdown (srcHeader doc),
   Effect.stCode (pySlice 700 (pyStrip doc.page_content) ++ "...") "markdown"]

/-- `load_vector_store()`: construct the embedding model, read the handbook
file, split it into chunks, embed the chunks into a FAISS index
(`FAISS.from_documents`), and return an MMR retriever.  Returns the trace of
effects and, when the file read fails, the uncaught exception. -/
def load_vector_store (env : Env) : List Effect × Option String :=
  let pre := [Effect.makeEmbeddings "all-MiniLM-L6-v2",
              Effect.readFile "data/handbook_cleaned_FULL.txt"]
  match env.handbook with
  | Except.error err => (pre, some err)
  | Except.ok raw =>
      let n := (env.splitFn 500 60 raw).length
      (pre ++ [Effect.splitText 500 60 n, Effect.embedChunks n, Effect.buildIndex n,
               Effect.makeRetriever "mmr" 8 18], none)

/-- One rerun of `app.py`.  `cached` says whether `st.cache_resource` already
holds the retriever (so the body of `load_vector_store` is skipped);
`session` is `st.session_state.chat_history` if present; `query` is what
`st.chat_input` returned. -/
def runScript (env : Env) (cached : Bool)
    (session : Option (List (String × String))) (query : Option String) :
    List Effect × Outcome :=
  let e0 := [Effect.setPageConfig "GitLab GenAI Chatbot"]
  match lookupSecret env.secrets "GOOGLE_API_KEY" with
  | none =>
      (e0 ++ [Effect.stError "Google API Key not found. Please add it to Streamlit secrets."],
       Outcome.stopped)
  | some key =>
      let e1 := e0 ++ [Effect.setEnv "GOOGLE_API_KEY" key]
      let load := if cached then ([], none) else load_vector_store env
      match load.2 with
      | some err => (e1 ++ load.1, Outcome.crashed err)
      | none =>
          let e2 := e1 ++ load.1 ++
            [Effect.makeLLM "gemini-1.5-flash", Effect.makeMemory, Effect.makeChain,
             Effect.stTitle "🤖 GitLab Handbook & Direction AI Chatbot",
             Effect.stMarkdown welcomeText]
          let history := session.getD []
          let e3 := e2 ++ [Effect.chatInput] ++ replayEffects history
          match query with
          | none => (e3, Outcome.completed history)
          | some q =>
              let e4 := e3 ++ [Effect.chatMessage "user" "🧑" q]
              let memHist : List (String × String) := []
              let docs := env.retrieveFn q
              let e5 := e4 ++ [Effect.spinner "🤖 Thinking... generating response...",
                               Effect.llmCall docs memHist q]
              match qaChainCall env memHist q with
              | Except.error err =>
                  (e5 ++ [Effect.stError "⚠️ Something went wrong while generating the answer.",
                          Effect.stException err],
                   Outcome.completed history)
              | Except.ok res =>
                  let e6 := e5 ++ [Effect.chatMessage "assistant" "🤖" res.answer,
                                   Effect.expander "📚 Sources & Reasoning"] ++
                            res.source_documents.foldr (fun d acc => sourceDocEffects d ++ acc) []
                  (e6, Outcome.completed (history ++ [(q, res.answer)]))

/-- Is the effect the remote LLM API call? -/
def isLlmCall : Effect → Bool
  | Effect.llmCall _ _ _ => true
  | _ => false

/-- Number of remote LLM API calls in a trace. -/
def countLlm (tr : List Effect) : Nat := tr.countP isLlmCall

/-- Is the effect the handbook file read? -/
def isReadFile : Effect → Bool
  | Effect.readFile _ => true
  | _ => false

/-- Is the effect the text-splitting step? -/
def isSplitText : Effect → Bool
  | Effect.splitText _ _ _ => true
  | _ => false

/-- Is the effect the chunk-embedding step? -/
def isEmbedChunks : Effect → Bool
  | Effect.embedChunks _ => true
  | _ => false

/-- Is the effect the vector-index construction step? -/
def isBuildIndex : Effect → Bool
  | Effect.buildIndex _ => true
  | _ => false

/-- Is the effect the chat input box (the entry point of the chat loop)? -/
def isChatInput : Effect → Bool
  | Effect.chatInput => true
  | _ => false

/-- Is the effect the write of the API key into the process environment? -/
def isSetEnv : Effect → Bool
  | Effect.setEnv _ _ => true
  | _ => false

/-- Is the effect the construction of a model (the embedding model or the
LLM)? -/
def isModelCtor : Effect → Bool
  | Effect.makeEmbeddings _ => true
  | Effect.makeLLM _ => true
  | _ => false

/-- Is the effect a Streamlit UI render or input (the chat interface)? -/
def isUiEffect : Effect → Bool
  | Effect.setPageConfig _ => true
  | Effect.stError _ => true
  | Effect.stTitle _ => true
  | Effect.stMarkdown _ => true
  | Effect.chatInput => true
  | Effect.chatMessage _ _ _ => true
  | Effect.spinner _ => true
  | Effect.expander _ => true
  | Effect.stCode _ _ => true
  | Effect.stException _ => true
  | _ => false

/-- Is the effect one of the in-process library constructions (splitter,
embeddings, FAISS index, retriever, LLM client, memory, chain)? -/
def isLibBuild : Effect → Bool
  | Effect.makeEmbeddings _ => true
  | Effect.splitText _ _ _ => true
  | Effect.embedChunks _ => true
  | Effect.buildIndex _ => true
  | Effect.makeRetriever _ _ _ => true
  | Effect.makeLLM _ => true
  | Effect.makeMemory => true
  | Effect.makeChain => true
  | _ => false

/-- A concrete environment where everything succeeds. -/
def envOk : Env :=
  ⟨[("GOOGLE_API_KEY", "k")], Except.ok "hello world",
   fun _ _ s => [s], fun _ => [⟨"chunk", [("source", "hb")]⟩],
   fun _ _ q => Except.ok ("ans:" ++ q)⟩

/-- A concrete environment where the LLM call raises. -/
def envErr : Env :=
  ⟨[("GOOGLE_API_KEY", "k")], Except.ok "hello world",
   fun _ _ s => [s], fun _ => [⟨"chunk", [("source", "hb")]⟩],
   fun _ _ _ => Except.error "boom"⟩

/-- A concrete environment with no `GOOGLE_API_KEY` secret. -/
def envNoKey : Env :=
  ⟨[], Except.ok "hello world", fun _ _ s => [s], fun _ => [],
   fun _ _ q => Except.ok q⟩

/-- A concrete environment where reading the handbook file fails. -/
def envBadFile : Env :=
  ⟨[("GOOGLE_API_KEY", "k")], Except.error "file not found",
   fun _ _ s => [s], fun _ => [], fun _ _ q => Except.ok q⟩

/-- Every effect replayed from the stored history is a chat message. -/
lemma mem_replayEffects {e : Effect} {h : List (String × String)}
    (he : e ∈ replayEffects h) : ∃ r a c, e = Effect.chatMessage r a c := by
  induction h with
  | nil => simp [replayEffects] at he
  | cons p t ih =>
      simp only [replayEffects, List.foldr_cons, List.mem_cons] at he
      rcases he with rfl | rfl | he
      · exact ⟨_, _, _, rfl⟩
      · exact ⟨_, _, _, rfl⟩
      · exact ih he

/-- Every effect rendered in the sources expander is a markdown header or a
code block. -/
lemma mem_sourceFold {e : Effect} {docs : List Document}
    (he : e ∈ docs.foldr (fun d acc => sourceDocEffects d ++ acc) []) :
    (∃ s, e = Effect.stMarkdown s) ∨ (∃ s l, e = Effect.stCode s l) := by
  induction docs with
  | nil => simp at he
  | cons d t ih =>
      simp only [List.foldr_cons, sourceDocEffects, List.cons_append, List.nil_append,
        List.mem_cons] at he
      rcases he with rfl | rfl | he
      · exact Or.inl ⟨_, rfl⟩
      · exact Or.inr ⟨_, _, rfl⟩
      · exact ih he

/-- Each retrieved document contributes its truncated code block to the
sources expander. -/
lemma stCode_mem_sourceFold {doc : Document} {docs : List Document}
    (hd : doc ∈ docs) :
    Effect.stCode (pySlice 700 (pyStrip doc.page_content) ++ "...") "markdown" ∈
      docs.foldr (fun d acc => sourceDocEffects d ++ acc) [] := by
  induction docs with
  | nil => simp at hd
  | cons d t ih =>
      rcases List.mem_cons.mp hd with rfl | hd
      · simp [sourceDocEffects]
      · simp only [List.foldr_cons, List.mem_append]
        exact Or.inr (ih hd)

/-- When the API key secret is missing, every rerun renders the error and
stops immediately. -/
lemma runScript_noKey (env : Env) (c : Bool) (s : Option (List (String × String)))
    (q : Option String)
    (hkey : lookupSecret env.secrets "GOOGLE_API_KEY" = none) :
    runScript env c s q =
      ([Effect.setPageConfig "GitLab GenAI Chatbot",
        Effect.stError "Google API Key not found. Please add it to Streamlit secrets."],
       Outcome.stopped) := by
  simp [runScript, hkey]

/-- Trace of a cached rerun whose query makes the LLM raise. -/
lemma runScript_query_err (env : Env) (key : String) (h : List (String × String))
    (q err : String)
    (hkey : lookupSecret env.secrets "GOOGLE_API_KEY" = some key)
    (hllm : env.llmFn (env.retrieveFn q) [] q = Except.error err) :
    runScript env true (some h) (some q) =
      (Effect.setPageConfig "GitLab GenAI Chatbot" ::
       Effect.setEnv "GOOGLE_API_KEY" key ::
       Effect.makeLLM "gemini-1.5-flash" :: Effect.makeMemory :: Effect.makeChain ::
       Effect.stTitle "🤖 GitLab Handbook & Direction AI Chatbot" ::
       Effect.stMarkdown welcomeText :: Effect.chatInput ::
       (replayEffects h ++
        [Effect.chatMessage "user" "🧑" q,
         Effect.spinner "🤖 Thinking... generating response...",
         Effect.llmCall (env.retrieveFn q) [] q,
         Effect.stError "⚠️ Something went wrong while generating the answer.",
         Effect.stException err]),
       Outcome.completed h) := by
  simp [runScript, qaChainCall, hkey, hllm]

/-- Trace of a cached rerun whose query is answered successfully. -/
lemma runScript_query_ok (env : Env) (key : String) (h : List (String × String))
    (q ans : String)
    (hkey : lookupSecret env.secrets "GOOGLE_API_KEY" = some key)
    (hllm : env.llmFn (env.retrieveFn q) [] q = Except.ok ans) :
    runScript env true (some h) (some q) =
      (Effect.setPageConfig "GitLab GenAI Chatbot" ::
       Effect.setEnv "GOOGLE_API_KEY" key ::
       Effect.makeLLM "gemini-1.5-flash" :: Effect.makeMemory :: Effect.makeChain ::
       Effect.stTitle "🤖 GitLab Handbook & Direction AI Chatbot" ::
       Effect.stMarkdown welcomeText :: Effect.chatInput ::
       (replayEffects h ++
        (Effect.chatMessage "user" "🧑" q ::
         Effect.spinner "🤖 Thinking... generating response..." ::
         Effect.llmCall (env.retrieveFn q) [] q ::
         Effect.chatMessage "assistant" "🤖" ans ::
         Effect.expander "📚 Sources & Reasoning" ::
         (env.retrieveFn q).foldr (fun d acc => sourceDocEffects d ++ acc) [])),
       Outcome.completed (h ++ [(q, ans)])) := by
  simp [runScript, qaChainCall, hkey, hllm]

/-- Trace of the first (uncached) run before any query: the startup path. -/
lemma runScript_startup (env : Env) (key raw : String)
    (hkey : lookupSecret env.secrets "GOOGLE_API_KEY" = some key)
    (hbook : env.handbook = Except.ok raw) :
    runScript env false none none =
      ([Effect.setPageConfig "GitLab GenAI Chatbot",
        Effect.setEnv "GOOGLE_API_KEY" key,
        Effect.makeEmbeddings "all-MiniLM-L6-v2",
        Effect.readFile "data/handbook_cleaned_FULL.txt",
        Effect.splitText 500 60 (env.splitFn 500 60 raw).length,
        Effect.embedChunks (env.splitFn 500 60 raw).length,
        Effect.buildIndex (env.splitFn 500 60 raw).length,
        Effect.makeRetriever "mmr" 8 18,
        Effect.makeLLM "gemini-1.5-flash", Effect.makeMemory, Effect.makeChain,
        Effect.stTitle "🤖 GitLab Handbook & Direction AI Chatbot",
        Effect.stMarkdown welcomeText, Effect.chatInput],
       Outcome.completed []) := by
  simp [runScript, load_vector_store, hkey, hbook, replayEffects]

/-- When the handbook file read fails on a cold cache, the exception escapes
uncaught and the script crashes. -/
lemma runScript_badFile (env : Env) (key err : String)
    (s : Option (List (String × String))) (q : Option String)
    (hkey : lookupSecret env.secrets "GOOGLE_API_KEY" = some key)
    (hbook : env.handbook = Except.error err) :
    runScript env false s q =
      ([Effect.setPageConfig "GitLab GenAI Chatbot",
        Effect.setEnv "GOOGLE_API_KEY" key,
        Effect.makeEmbeddings "all-MiniLM-L6-v2",
        Effect.readFile "data/handbook_cleaned_FULL.txt"],
       Outcome.crashed err) := by
  simp [runScript, load_vector_store, hkey, hbook]

/-- A cached rerun with no stored history and no query initializes the chat
history to the empty list. -/
lemma runScript_fresh (env : Env) (key : String)
    (hkey : lookupSecret env.secrets "GOOGLE_API_KEY" = some key) :
    runScript env true none none =
      ([Effect.setPageConfig "GitLab GenAI Chatbot",
        Effect.setEnv "GOOGLE_API_KEY" key,
        Effect.makeLLM "gemini-1.5-flash", Effect.makeMemory, Effect.makeChain,
        Effect.stTitle "🤖 GitLab Handbook & Direction AI Chatbot",
        Effect.stMarkdown welcomeText, Effect.chatInput],
       Outcome.completed []) := by
  simp [runScript, hkey, replayEffects]

/-- The effects shared by every rerun that has the API key and a warm cache:
page config, env write, LLM/memory/chain construction, title, welcome text
and the chat input box. -/
def warmPrefix (key : String) : List Effect :=
  [Effect.setPageConfig "GitLab GenAI Chatbot",
   Effect.setEnv "GOOGLE_API_KEY" key,
   Effect.makeLLM "gemini-1.5-flash", Effect.makeMemory, Effect.makeChain,
   Effect.stTitle "🤖 GitLab Handbook & Direction AI Chatbot",
   Effect.stMarkdown welcomeText, Effect.chatInput]

/-- The effects shared by every rerun that has the API key and a cold cache:
as `warmPrefix` but with the vector-store build in between. -/
def coldPrefix (env : Env) (key raw : String) : List Effect :=
  [Effect.setPageConfig "GitLab GenAI Chatbot",
   Effect.setEnv "GOOGLE_API_KEY" key,
   Effect.makeEmbeddings "all-MiniLM-L6-v2",
   Effect.readFile "data/handbook_cleaned_FULL.txt",
   Effect.splitText 500 60 (env.splitFn 500 60 raw).length,
   Effect.embedChunks (env.splitFn 500 60 raw).length,
   Effect.buildIndex (env.splitFn 500 60 raw).length,
   Effect.makeRetriever "mmr" 8 18,
   Effect.makeLLM "gemini-1.5-flash", Effect.makeMemory, Effect.makeChain,
   Effect.stTitle "🤖 GitLab Handbook & Direction AI Chatbot",
   Effect.stMarkdown welcomeText, Effect.chatInput]

/-- The effects of submitting a query, up to and including the remote call. -/
def queryCallSeg (env : Env) (q : String) : List Effect :=
  [Effect.chatMessage "user" "🧑" q,
   Effect.spinner "🤖 Thinking... generating response...",
   Effect.llmCall (env.retrieveFn q) [] q]

/-- The effects of the catch-all handler. -/
def errTail (err : String) : List Effect :=
  [Effect.stError "⚠️ Something went wrong while generating the answer.",
   Effect.stException err]

/-- The effects of rendering a successful answer and its sources. -/
def okTail (env : Env) (q ans : String) : List Effect :=
  Effect.chatMessage "assistant" "🤖" ans ::
  Effect.expander "📚 Sources & Reasoning" ::
  (env.retrieveFn q).foldr (fun d acc => sourceDocEffects d ++ acc) []

/-- A missing session chat history behaves exactly like an empty one. -/
lemma runScript_none_session (env : Env) (c : Bool) (q : Option String) :
    runScript env c none q = runScript env c (some []) q := rfl

/-- Warm-cache rerun with no query. -/
lemma runScript_warm_none (env : Env) (key : String) (h : List (String × String))
    (hkey : lookupSecret env.secrets "GOOGLE_API_KEY" = some key) :
    runScript env true (some h) none =
      (warmPrefix key ++ replayEffects h, Outcome.completed h) := by
  simp [runScript, warmPrefix, hkey]

/-- Warm-cache rerun whose query makes the LLM raise. -/
lemma runScript_warm_err (env : Env) (key : String) (h : List (String × String))
    (q err : String)
    (hkey : lookupSecret env.secrets "GOOGLE_API_KEY" = some key)
    (hllm : env.llmFn (env.retrieveFn q) [] q = Except.error err) :
    runScript env true (some h) (some q) =
      (warmPrefix key ++ replayEffects h ++ queryCallSeg env q ++ errTail err,
       Outcome.completed h) := by
  simp [runScript, qaChainCall, warmPrefix, queryCallSeg, errTail, hkey, hllm]

/-- Warm-cache rerun whose query is answered. -/
lemma runScript_warm_ok (env : Env) (key : String) (h : List (String × String))
    (q ans : String)
    (hkey : lookupSecret env.secrets "GOOGLE_API_KEY" = some key)
    (hllm : env.llmFn (env.retrieveFn q) [] q = Except.ok ans) :
    runScript env true (some h) (some q) =
      (warmPrefix key ++ replayEffects h ++ queryCallSeg env q ++ okTail env q ans,
       Outcome.completed (h ++ [(q, ans)])) := by
  simp [runScript, qaChainCall, warmPrefix, queryCallSeg, okTail, hkey, hllm]

/-- Cold-cache rerun with no query. -/
lemma runScript_cold_none (env : Env) (key raw : String) (h : List (String × String))
    (hkey : lookupSecret env.secrets "GOOGLE_API_KEY" = some key)
    (hbook : env.handbook = Except.ok raw) :
    runScript env false (some h) none =
      (coldPrefix env key raw ++ replayEffects h, Outcome.completed h) := by
  simp [runScript, load_vector_store, coldPrefix, hkey, hbook]

/-- Cold-cache rerun whose query makes the LLM raise. -/
lemma runScript_cold_err (env : Env) (key raw : String) (h : List (String × String))
    (q err : String)
    (hkey : lookupSecret env.secrets "GOOGLE_API_KEY" = some key)
    (hbook : env.handbook = Except.ok raw)
    (hllm : env.llmFn (env.retrieveFn q) [] q = Except.error err) :
    runScript env false (some h) (some q) =
      (coldPrefix env key raw ++ replayEffects h ++ queryCallSeg env q ++ errTail err,
       Outcome.completed h) := by
  simp [runScript, load_vector_store, qaChainCall, coldPrefix, queryCallSeg, errTail,
    hkey, hbook, hllm]

/-- Cold-cache rerun whose query is answered. -/
lemma runScript_cold_ok (env : Env) (key raw : String) (h : List (String × String))
    (q ans : String)
    (hkey : lookupSecret env.secrets "GOOGLE_API_KEY" = some key)
    (hbook : env.handbook = Except.ok raw)
    (hllm : env.llmFn (env.retrieveFn q) [] q = Except.ok ans) :
    runScript env false (some h) (some q) =
      (coldPrefix env key raw ++ replayEffects h ++ queryCallSeg env q ++ okTail env q ans,
       Outcome.completed (h ++ [(q, ans)])) := by
  simp [runScript, load_vector_store, qaChainCall, coldPrefix, queryCallSeg, okTail,
    hkey, hbook, hllm]

/-- Whenever the API key is present, the trace starts with the page config
followed immediately by the environment write of the key. -/
lemma runScript_withKey_shape (env : Env) (c : Bool)
    (s : Option (List (String × String))) (q : Option String) (key : String)
    (hkey : lookupSecret env.secrets "GOOGLE_API_KEY" = some key) :
    ∃ rest, (runScript env c s q).1 =
      Effect.setPageConfig "GitLab GenAI Chatbot" ::
      Effect.setEnv "GOOGLE_API_KEY" key :: rest := by
  have aux : ∀ h : List (String × String), ∃ rest, (runScript env c (some h) q).1 =
      Effect.setPageConfig "GitLab GenAI Chatbot" ::
      Effect.setEnv "GOOGLE_API_KEY" key :: rest := by
    intro h
    cases c with
    | true =>
        rcases q with _ | q'
        · exact ⟨_, by rw [runScript_warm_none env key h hkey]; rfl⟩
        · rcases hr : env.llmFn (env.retrieveFn q') [] q' with err | ans
          · exact ⟨_, by rw [runScript_warm_err env key h q' err hkey hr]; rfl⟩
          · exact ⟨_, by rw [runScript_warm_ok env key h q' ans hkey hr]; rfl⟩
    | false =>
        rcases hb : env.handbook with err | raw
        · exact ⟨_, by rw [runScript_badFile env key err (some h) q hkey hb]⟩
        · rcases q with _ | q'
          · exact ⟨_, by rw [runScript_cold_none env key raw h hkey hb]; rfl⟩
          · rcases hr : env.llmFn (env.retrieveFn q') [] q' with err | ans
            · exact ⟨_, by rw [runScript_cold_err env key raw h q' err hkey hb hr]; rfl⟩
            · exact ⟨_, by rw [runScript_cold_ok env key raw h q' ans hkey hb hr]; rfl⟩
  rcases s with _ | h
  · rw [runScript_none_session]
    exact aux []
  · exact aux h

/-- Replaying the stored history performs no LLM call. -/
lemma countP_isLlmCall_replay (h : List (String × String)) :
    (replayEffects h).countP isLlmCall = 0 := by
  induction h with
  | nil => rfl
  | cons p t ih =>
      show (Effect.chatMessage "user" "🧑" p.1 ::
            Effect.chatMessage "assistant" "🤖" p.2 ::
            replayEffects t).countP isLlmCall = 0
      simp [List.countP_cons, isLlmCall, ih]

/-- No LLM call hides among the replayed history messages. -/
lemma filter_isLlmCall_replay (h : List (String × String)) :
    (replayEffects h).filter isLlmCall = [] := by
  induction h with
  | nil => rfl
  | cons p t ih =>
      show (Effect.chatMessage "user" "🧑" p.1 ::
            Effect.chatMessage "assistant" "🤖" p.2 ::
            replayEffects t).filter isLlmCall = []
      simp [List.filter_cons, isLlmCall, ih]

/-- No LLM call hides among the sources-expander renderings. -/
lemma filter_isLlmCall_sourceFold (docs : List Document) :
    (docs.foldr (fun d acc => sourceDocEffects d ++ acc) []).filter isLlmCall = [] := by
  induction docs with
  | nil => rfl
  | cons d t ih =>
      show (Effect.stMarkdown (srcHeader d) ::
            Effect.stCode (pySlice 700 (pyStrip d.page_content) ++ "...") "markdown" ::
            t.foldr (fun d acc => sourceDocEffects d ++ acc) []).filter isLlmCall = []
      simp [List.filter_cons, isLlmCall, ih]

/-- A Python slice `s[:n]` has at most `n` characters. -/
lemma pyLen_pySlice_le (n : Nat) (s : String) : pyLen (pySlice n s) ≤ n := by
  show (s.toList.take n).length ≤ n
  rw [List.length_take]
  omega

/-- A Python slice `s[:n]` of a string of at most `n` characters is the whole
string. -/
lemma pySlice_eq_of_le {n : Nat} {s : String} (hn : pyLen s ≤ n) :
    pySlice n s = s := by
  show (s.toList.take n).asString = s
  rw [List.take_of_length_le hn, String.asString_toList]

/-- C1: the program's sole error handling is the single blanket catch-all
around the query-answer call: whenever the LLM call raises, the generic
message and the exception are displayed, the chain is invoked exactly once
(no retry), the rerun completes with the history unchanged (no recovery);
and no other handler exists: a handbook read failure escapes uncaught and
crashes the script. -/
theorem C1_sole_error_handler :
    (∀ (env : Env) (key : String) (h : List (String × String)) (q err : String),
      lookupSecret env.secrets "GOOGLE_API_KEY" = some key →
      env.llmFn (env.retrieveFn q) [] q = Except.error err →
      Effect.stError "⚠️ Something went wrong while generating the answer."
          ∈ (runScript env true (some h) (some q)).1 ∧
      Effect.stException err ∈ (runScript env true (some h) (some q)).1 ∧
      countLlm (runScript env true (some h) (some q)).1 = 1 ∧
      (runScript env true (some h) (some q)).2 = Outcome.completed h) ∧
    (∀ (env : Env) (key err : String) (s : Option (List (String × String)))
       (q : Option String),
      lookupSecret env.secrets "GOOGLE_API_KEY" = some key →
      env.handbook = Except.error err →
      (runScript env false s q).2 = Outcome.crashed err) := by
  constructor
  · intro env key h q err hkey hllm
    rw [runScript_query_err env key h q err hkey hllm]
    refine ⟨by simp, by simp, ?_, rfl⟩
    simp [countLlm, List.countP_cons, List.countP_append, isLlmCall,
      countP_isLlmCall_replay]
  · intro env key err s q hkey hbook
    rw [runScript_badFile env key err s q hkey hbook]

/-- Closed instance of `C1_sole_error_handler` at concrete environments. -/
theorem C1_sole_error_handler_witness :
    (Effect.stError "⚠️ Something went wrong while generating the answer."
        ∈ (runScript envErr true (some [("hi", "there")]) (some "q")).1 ∧
     Effect.stException "boom"
        ∈ (runScript envErr true (some [("hi", "there")]) (some "q")).1 ∧
     countLlm (runScript envErr true (some [("hi", "there")]) (some "q")).1 = 1 ∧
     (runScript envErr true (some [("hi", "there")]) (some "q")).2 =
        Outcome.completed [("hi", "there")]) ∧
    (runScript envBadFile false none none).2 = Outcome.crashed "file not found" :=
  ⟨C1_sole_error_handler.1 envErr "k" [("hi", "there")] "q" "boom" rfl rfl,
   C1_sole_error_handler.2 envBadFile "k" "file not found" none none rfl rfl⟩

/-- C2 counterexample: with stored history `[("hi", "there")]` and query
`"q"`, the single remote LLM call carries an empty chat history — the
accumulated chat history is never forwarded to the model, because the chain
memory is rebuilt empty on every Streamlit rerun. -/
theorem C2_history_not_forwarded_cex :
    Effect.llmCall [⟨"chunk", [("source", "hb")]⟩] [] "q"
        ∈ (runScript envOk true (some [("hi", "there")]) (some "q")).1 ∧
    Effect.llmCall [⟨"chunk", [("source", "hb")]⟩] [("hi", "there")] "q"
        ∉ (runScript envOk true (some [("hi", "there")]) (some "q")).1 := by
  decide

/-- C2 amended: for every submitted query the program retrieves passages for
that query and forwards them to the hosted LLM together with the chain
memory's chat history — which is freshly constructed on each rerun and hence
empty, the accumulated session history being display-only — and the LLM's
output is returned as the answer. -/
theorem C2_query_pipeline :
    ∀ (env : Env) (key : String) (h : List (String × String)) (q : String),
      lookupSecret env.secrets "GOOGLE_API_KEY" = some key →
      (∀ ans, env.llmFn (env.retrieveFn q) [] q = Except.ok ans →
        Effect.llmCall (env.retrieveFn q) [] q ∈ (runScript env true (some h) (some q)).1 ∧
        Effect.chatMessage "assistant" "🤖" ans ∈ (runScript env true (some h) (some q)).1 ∧
        (runScript env true (some h) (some q)).2 = Outcome.completed (h ++ [(q, ans)])) ∧
      (∀ docs hist qq,
        Effect.llmCall docs hist qq ∈ (runScript env true (some h) (some q)).1 →
        docs = env.retrieveFn q ∧ hist = [] ∧ qq = q) := by
  intro env key h q hkey
  constructor
  · intro ans hllm
    rw [runScript_query_ok env key h q ans hkey hllm]
    exact ⟨by simp, by simp, rfl⟩
  · intro docs hist qq hmem
    have hf : (runScript env true (some h) (some q)).1.filter isLlmCall =
        [Effect.llmCall (env.retrieveFn q) [] q] := by
      rcases hr : env.llmFn (env.retrieveFn q) [] q with err | ans
      · rw [runScript_query_err env key h q err hkey hr]
        simp [List.filter_cons, List.filter_append, isLlmCall, filter_isLlmCall_replay]
      · rw [runScript_query_ok env key h q ans hkey hr]
        simp [List.filter_cons, List.filter_append, isLlmCall, filter_isLlmCall_replay,
          filter_isLlmCall_sourceFold]
    have hm2 : Effect.llmCall docs hist qq ∈ [Effect.llmCall (env.retrieveFn q) [] q] := by
      rw [← hf]
      exact List.mem_filter.mpr ⟨hmem, rfl⟩
    rcases List.mem_singleton.mp hm2 with h1
    injection h1 with d1 d2 d3
    exact ⟨d1, d2, d3⟩

/-- Closed instance of `C2_query_pipeline` at a concrete environment. -/
theorem C2_query_pipeline_witness :
    (Effect.llmCall [⟨"chunk", [("source", "hb")]⟩] [] "q"
        ∈ (runScript envOk true (some []) (some "q")).1 ∧
     Effect.chatMessage "assistant" "🤖" "ans:q"
        ∈ (runScript envOk true (some []) (some "q")).1 ∧
     (runScript envOk true (some []) (some "q")).2 =
        Outcome.completed [("q", "ans:q")]) :=
  (C2_query_pipeline envOk "k" [] "q" rfl).1 "ans:q" rfl

/-- C4 counterexample: a single successful query takes the session state the
script owns from `[]` to `[("q", "ans:q")]` — the script itself defines and
maintains the `st.session_state.chat_history` list, a bespoke piece of
mutable state, contradicting the claim that it maintains none. -/
theorem C4_script_owned_state_cex :
    (runScript envOk true (some []) (some "q")).2 =
        Outcome.completed [("q", "ans:q")] ∧
    Outcome.completed [("q", "ans:q")] ≠
        Outcome.completed ([] : List (String × String)) := by
  decide

/-- C4 amended: the vector index, embeddings and chain memory are owned by
external libraries, but the script defines and maintains one bespoke piece
of mutable state of its own: `st.session_state.chat_history`, which it
initializes to the empty list when absent and appends the `(query, answer)`
pair to exactly when a query is answered successfully. -/
theorem C4_session_state_semantics :
    ∀ (env : Env) (key : String),
      lookupSecret env.secrets "GOOGLE_API_KEY" = some key →
      (runScript env true none none).2 = Outcome.completed [] ∧
      (∀ h, (runScript env true (some h) none).2 = Outcome.completed h) ∧
      (∀ h q ans, env.llmFn (env.retrieveFn q) [] q = Except.ok ans →
        (runScript env true (some h) (some q)).2 = Outcome.completed (h ++ [(q, ans)])) ∧
      (∀ h q err, env.llmFn (env.retrieveFn q) [] q = Except.error err →
        (runScript env true (some h) (some q)).2 = Outcome.completed h) := by
  intro env key hkey
  refine ⟨by rw [runScript_fresh env key hkey], ?_, ?_, ?_⟩
  · intro h
    simp [runScript, hkey]
  · intro h q ans hllm
    rw [runScript_query_ok env key h q ans hkey hllm]
  · intro h q err hllm
    rw [runScript_query_err env key h q err hkey hllm]

/-- Closed instance of `C4_session_state_semantics` at a concrete
environment. -/
theorem C4_session_state_semantics_witness :
    (runScript envOk true none none).2 = Outcome.completed [] ∧
    (runScript envOk true (some [("hi", "there")]) (some "q")).2 =
        Outcome.completed [("hi", "there"), ("q", "ans:q")] :=
  ⟨(C4_session_state_semantics envOk "k" rfl).1,
   (C4_session_state_semantics envOk "k" rfl).2.2.1 [("hi", "there")] "q" "ans:q" rfl⟩

/-- C5: a query whose processing raises leaves the session chat history
unchanged — the `(query, answer)` pair is appended only after the answer was
generated and rendered, so a failed query never appears in the replayed
conversation; on success the pair is appended after the assistant message is
rendered. -/
theorem C5_failed_query_leaves_history :
    ∀ (env : Env) (key : String) (h : List (String × String)) (q : String),
      lookupSecret env.secrets "GOOGLE_API_KEY" = some key →
      (∀ err, env.llmFn (env.retrieveFn q) [] q = Except.error err →
        (runScript env true (some h) (some q)).2 = Outcome.completed h ∧
        (replayEffects ((runScript env true (some h) (some q)).2 |> fun o =>
          match o with
          | Outcome.completed h2 => h2
          | _ => []) = replayEffects h)) ∧
      (∀ ans, env.llmFn (env.retrieveFn q) [] q = Except.ok ans →
        (runScript env true (some h) (some q)).2 = Outcome.completed (h ++ [(q, ans)]) ∧
        Effect.chatMessage "assistant" "🤖" ans ∈ (runScript env true (some h) (some q)).1) := by
  intro env key h q hkey
  constructor
  · intro err hllm
    rw [runScript_query_err env key h q err hkey hllm]
    exact ⟨rfl, rfl⟩
  · intro ans hllm
    rw [runScript_query_ok env key h q ans hkey hllm]
    exact ⟨rfl, by simp⟩

/-- Closed instance of `C5_failed_query_leaves_history` at a concrete
failing environment. -/
theorem C5_failed_query_leaves_history_witness :
    (runScript envErr true (some [("hi", "there")]) (some "q")).2 =
        Outcome.completed [("hi", "there")] :=
  ((C5_failed_query_leaves_history envErr "k" [("hi", "there")] "q" rfl).1 "boom" rfl).1

/-- C9: every source document shown in the sources expander renders as the
document's stripped page content cut to its first at most 700 characters
with an ellipsis appended — the ellipsis is appended even when the stripped
content is shorter than 700 characters, in which case the whole stripped
content is shown. -/
theorem C9_source_truncation :
    ∀ (env : Env) (key : String) (h : List (String × String)) (q ans : String),
      lookupSecret env.secrets "GOOGLE_API_KEY" = some key →
      env.llmFn (env.retrieveFn q) [] q = Except.ok ans →
      ∀ doc ∈ env.retrieveFn q,
        Effect.stCode (pySlice 700 (pyStrip doc.page_content) ++ "...") "markdown"
            ∈ (runScript env true (some h) (some q)).1 ∧
        pyLen (pySlice 700 (pyStrip doc.page_content)) ≤ 700 ∧
        (pyLen (pyStrip doc.page_content) ≤ 700 →
          pySlice 700 (pyStrip doc.page_content) ++ "..." =
            pyStrip doc.page_content ++ "...") := by
  intro env key h q ans hkey hllm doc hdoc
  refine ⟨?_, pyLen_pySlice_le 700 _, fun hle => by rw [pySlice_eq_of_le hle]⟩
  rw [runScript_query_ok env key h q ans hkey hllm]
  simp only [List.mem_cons, List.mem_append]
  exact Or.inr (Or.inr (Or.inr (Or.inr (Or.inr (Or.inr (Or.inr (Or.inr
    (Or.inr (Or.inr (Or.inr (Or.inr (Or.inr (Or.inr
      (stCode_mem_sourceFold hdoc))))))))))))))

/-- Closed instance of `C9_source_truncation` at a concrete environment with
a short document. -/
theorem C9_source_truncation_witness :
    Effect.stCode (pySlice 700 (pyStrip "chunk") ++ "...") "markdown"
        ∈ (runScript envOk true (some []) (some "q")).1 ∧
    pyLen (pySlice 700 (pyStrip "chunk")) ≤ 700 ∧
    (pyLen (pyStrip "chunk") ≤ 700 →
      pySlice 700 (pyStrip "chunk") ++ "..." = pyStrip "chunk" ++ "...") :=
  C9_source_truncation envOk "k" [] "q" "ans:q" rfl rfl
    ⟨"chunk", [("source", "hb")]⟩ (by decide)

/-- C3: at startup (first run: cold cache, no session, no query) the program
reads the handbook file, then splits it, then embeds the chunks, then builds
the vector index, and only then exposes the chat input of the UI loop, which
is present in the trace. -/
theorem C3_startup_pipeline_order :
    ∀ (env : Env) (key raw : String),
      lookupSecret env.secrets "GOOGLE_API_KEY" = some key →
      env.handbook = Except.ok raw →
      (runScript env false none none).1.findIdx isReadFile <
        (runScript env false none none).1.findIdx isSplitText ∧
      (runScript env false none none).1.findIdx isSplitText <
        (runScript env false none none).1.findIdx isEmbedChunks ∧
      (runScript env false none none).1.findIdx isEmbedChunks <
        (runScript env false none none).1.findIdx isBuildIndex ∧
      (runScript env false none none).1.findIdx isBuildIndex <
        (runScript env false none none).1.findIdx isChatInput ∧
      (runScript env false none none).1.findIdx isChatInput <
        (runScript env false none none).1.length ∧
      (runScript env false none none).2 = Outcome.completed [] := by
  intro env key raw hkey hbook
  rw [runScript_startup env key raw hkey hbook]
  simp [List.findIdx_cons, isReadFile, isSplitText, isEmbedChunks, isBuildIndex,
    isChatInput]

/-- Closed instance of `C3_startup_pipeline_order` at a concrete
environment. -/
theorem C3_startup_pipeline_order_witness :
    (runScript envOk false none none).1.findIdx isReadFile <
      (runScript envOk false none none).1.findIdx isSplitText ∧
    (runScript envOk false none none).1.findIdx isSplitText <
      (runScript envOk false none none).1.findIdx isEmbedChunks ∧
    (runScript envOk false none none).1.findIdx isEmbedChunks <
      (runScript envOk false none none).1.findIdx isBuildIndex ∧
    (runScript envOk false none none).1.findIdx isBuildIndex <
      (runScript envOk false none none).1.findIdx isChatInput ∧
    (runScript envOk false none none).1.findIdx isChatInput <
      (runScript envOk false none none).1.length ∧
    (runScript envOk false none none).2 = Outcome.completed [] :=
  C3_startup_pipeline_order envOk "k" "hello world" rfl rfl

/-- C6: when `GOOGLE_API_KEY` is absent from the secrets the rerun renders
the error and stops — no vector-store build, no file read, no model or
chain construction, no chat input, no LLM call; when it is present, its
value is written to the process environment immediately after the page
config and before any model construction. -/
theorem C6_api_key_gate :
    (∀ (env : Env) (c : Bool) (s : Option (List (String × String)))
       (q : Option String),
      lookupSecret env.secrets "GOOGLE_API_KEY" = none →
      (runScript env c s q).2 = Outcome.stopped ∧
      Effect.stError "Google API Key not found. Please add it to Streamlit secrets."
          ∈ (runScript env c s q).1 ∧
      ∀ e ∈ (runScript env c s q).1,
        isLibBuild e = false ∧ isChatInput e = false ∧ isReadFile e = false ∧
        isLlmCall e = false) ∧
    (∀ (env : Env) (c : Bool) (s : Option (List (String × String)))
       (q : Option String) (key : String),
      lookupSecret env.secrets "GOOGLE_API_KEY" = some key →
      Effect.setEnv "GOOGLE_API_KEY" key ∈ (runScript env c s q).1 ∧
      (runScript env c s q).1.findIdx isSetEnv <
        (runScript env c s q).1.findIdx isModelCtor) := by
  constructor
  · intro env c s q hkey
    rw [runScript_noKey env c s q hkey]
    refine ⟨rfl, by simp, ?_⟩
    intro e he
    simp only [List.mem_cons, List.not_mem_nil, or_false] at he
    rcases he with rfl | rfl <;> exact ⟨rfl, rfl, rfl, rfl⟩
  · intro env c s q key hkey
    obtain ⟨rest, hsh⟩ := runScript_withKey_shape env c s q key hkey
    rw [hsh]
    constructor
    · simp
    · simp only [List.findIdx_cons, isSetEnv, isModelCtor, cond_false, cond_true]
      omega

/-- Closed instance of `C6_api_key_gate` at concrete environments. -/
theorem C6_api_key_gate_witness :
    ((runScript envNoKey false none none).2 = Outcome.stopped ∧
     Effect.stError "Google API Key not found. Please add it to Streamlit secrets."
        ∈ (runScript envNoKey false none none).1) ∧
    (Effect.setEnv "GOOGLE_API_KEY" "k" ∈ (runScript envOk false none none).1 ∧
     (runScript envOk false none none).1.findIdx isSetEnv <
       (runScript envOk false none none).1.findIdx isModelCtor) :=
  ⟨⟨(C6_api_key_gate.1 envNoKey false none none rfl).1,
    (C6_api_key_gate.1 envNoKey false none none rfl).2.1⟩,
   C6_api_key_gate.2 envOk false none none "k" rfl⟩

/-- C7: on the startup run, chunking the text, building the vector index and
wiring the retrieval chain with memory are each exactly one library
invocation, in library order, with the concrete parameters of the source:
splitter with chunk size 500 and overlap 60, MMR retriever with k = 8 and
fetch-k = 18, Gemini LLM, summary-buffer memory, conversational retrieval
chain — and nothing bespoke in between. -/
theorem C7_library_invocations :
    ∀ (env : Env) (key raw : String),
      lookupSecret env.secrets "GOOGLE_API_KEY" = some key →
      env.handbook = Except.ok raw →
      (runScript env false none none).1.filter isLibBuild =
        [Effect.makeEmbeddings "all-MiniLM-L6-v2",
         Effect.splitText 500 60 (env.splitFn 500 60 raw).length,
         Effect.embedChunks (env.splitFn 500 60 raw).length,
         Effect.buildIndex (env.splitFn 500 60 raw).length,
         Effect.makeRetriever "mmr" 8 18,
         Effect.makeLLM "gemini-1.5-flash", Effect.makeMemory, Effect.makeChain] := by
  intro env key raw hkey hbook
  rw [runScript_startup env key raw hkey hbook]
  simp [List.filter_cons, isLibBuild]

/-- Closed instance of `C7_library_invocations` at a concrete environment. -/
theorem C7_library_invocations_witness :
    (runScript envOk false none none).1.filter isLibBuild =
      [Effect.makeEmbeddings "all-MiniLM-L6-v2",
       Effect.splitText 500 60 (envOk.splitFn 500 60 "hello world").length,
       Effect.embedChunks (envOk.splitFn 500 60 "hello world").length,
       Effect.buildIndex (envOk.splitFn 500 60 "hello world").length,
       Effect.makeRetriever "mmr" 8 18,
       Effect.makeLLM "gemini-1.5-flash", Effect.makeMemory, Effect.makeChain] :=
  C7_library_invocations envOk "k" "hello world" rfl rfl

/-- C8 counterexample: the startup run reads the handbook file from the
filesystem — an externally observable input that is neither a UI interaction
nor the remote LLM call, contradicting the claim that no interface beyond
those exists. -/
theorem C8_file_read_cex :
    Effect.readFile "data/handbook_cleaned_FULL.txt"
        ∈ (runScript envOk false none none).1 ∧
    isUiEffect (Effect.readFile "data/handbook_cleaned_FULL.txt") = false ∧
    isLlmCall (Effect.readFile "data/handbook_cleaned_FULL.txt") = false := by
  decide

/-- Classification of every externally observable effect the claim allows
after amendment: Streamlit UI rendering and chat input, in-process library
constructions, the handbook file read, the write of the secret API key into
the process environment, and the remote LLM call carrying the retrieved
documents, the empty memory history and the submitted query. -/
def AllowedIface (env : Env) (q : Option String) (e : Effect) : Prop :=
  isUiEffect e = true ∨ isLibBuild e = true ∨
  e = Effect.readFile "data/handbook_cleaned_FULL.txt" ∨
  (∃ v, e = Effect.setEnv "GOOGLE_API_KEY" v ∧
        lookupSecret env.secrets "GOOGLE_API_KEY" = some v) ∨
  (∃ qq, q = some qq ∧ e = Effect.llmCall (env.retrieveFn qq) [] qq)

/-- C8 amended: the program's external interfaces are the chat input box and
the rendered conversation view, the remote LLM API — plus the startup read
of the handbook file and the secrets-to-environment copy of the API key; in
every rerun every effect is one of these (or an in-process library
construction), with the payloads fixed by the source. -/
theorem C8_external_interfaces :
    ∀ (env : Env) (c : Bool) (s : Option (List (String × String)))
      (q : Option String),
      ∀ e ∈ (runScript env c s q).1, AllowedIface env q e := by
  intro env c s q
  rcases hkey : lookupSecret env.secrets "GOOGLE_API_KEY" with _ | key
  · rw [runScript_noKey env c s q hkey]
    intro e he
    simp only [List.mem_cons, List.not_mem_nil, or_false] at he
    rcases he with rfl | rfl <;> exact Or.inl rfl
  · have aux : ∀ h : List (String × String),
        ∀ e ∈ (runScript env c (some h) q).1, AllowedIface env q e := by
      intro h
      have closer : ∀ (pre post : List Effect),
          (∀ e ∈ pre, AllowedIface env q e) → (∀ e ∈ post, AllowedIface env q e) →
          ∀ e ∈ pre ++ post, AllowedIface env q e := by
        intro pre post h1 h2 e he
        rcases List.mem_append.mp he with he | he
        · exact h1 e he
        · exact h2 e he
      have hreplay : ∀ e ∈ replayEffects h, AllowedIface env q e := by
        intro e he
        rcases mem_replayEffects he with ⟨r, a, ct, rfl⟩
        exact Or.inl rfl
      cases c with
      | true =>
          rcases q with _ | q'
          · rw [runScript_warm_none env key h hkey]
            refine closer _ _ ?_ hreplay
            intro e he
            simp only [warmPrefix, List.mem_cons, List.not_mem_nil, or_false] at he
            rcases he with rfl | rfl | rfl | rfl | rfl | rfl | rfl | rfl <;>
              first
                | exact Or.inl rfl
                | exact Or.inr (Or.inl rfl)
                | exact Or.inr (Or.inr (Or.inr (Or.inl ⟨key, rfl, hkey⟩)))
          · have hseg : ∀ e ∈ queryCallSeg env q', AllowedIface env (some q') e := by
              intro e he
              simp only [queryCallSeg, List.mem_cons, List.not_mem_nil, or_false] at he
              rcases he with rfl | rfl | rfl <;>
                first
                  | exact Or.inl rfl
                  | exact Or.inr (Or.inr (Or.inr (Or.inr ⟨q', rfl, rfl⟩)))
            have hwp : ∀ e ∈ warmPrefix key, AllowedIface env (some q') e := by
              intro e he
              simp only [warmPrefix, List.mem_cons, List.not_mem_nil, or_false] at he
              rcases he with rfl | rfl | rfl | rfl | rfl | rfl | rfl | rfl <;>
                first
                  | exact Or.inl rfl
                  | exact Or.inr (Or.inl rfl)
                  | exact Or.inr (Or.inr (Or.inr (Or.inl ⟨key, rfl, hkey⟩)))
            rcases hr : env.llmFn (env.retrieveFn q') [] q' with err | ans
            · rw [runScript_warm_err env key h q' err hkey hr]
              refine closer _ _ (closer _ _ (closer _ _ hwp hreplay) hseg) ?_
              intro e he
              simp only [errTail, List.mem_cons, List.not_mem_nil, or_false] at he
              rcases he with rfl | rfl <;> exact Or.inl rfl
            · rw [runScript_warm_ok env key h q' ans hkey hr]
              refine closer _ _ (closer _ _ (closer _ _ hwp hreplay) hseg) ?_
              intro e he
              simp only [okTail, List.mem_cons] at he
              rcases he with rfl | rfl | he
              · exact Or.inl rfl
              · exact Or.inl rfl
              · rcases mem_sourceFold he with ⟨s1, rfl⟩ | ⟨s1, l1, rfl⟩ <;>
                  exact Or.inl rfl
      | false =>
          rcases hb : env.handbook with err | raw
          · rw [runScript_badFile env key err (some h) q hkey hb]
            intro e he
            simp only [List.mem_cons, List.not_mem_nil, or_false] at he
            rcases he with rfl | rfl | rfl | rfl <;>
              first
                | exact Or.inl rfl
                | exact Or.inr (Or.inl rfl)
                | exact Or.inr (Or.inr (Or.inl rfl))
                | exact Or.inr (Or.inr (Or.inr (Or.inl ⟨key, rfl, hkey⟩)))
          · have hcp : ∀ qv, ∀ e ∈ coldPrefix env key raw, AllowedIface env qv e := by
              intro qv e he
              simp only [coldPrefix, List.mem_cons, List.not_mem_nil, or_false] at he
              rcases he with
                rfl | rfl | rfl | rfl | rfl | rfl | rfl | rfl | rfl | rfl | rfl |
                rfl | rfl | rfl <;>
                first
                  | exact Or.inl rfl
                  | exact Or.inr (Or.inl rfl)
                  | exact Or.inr (Or.inr (Or.inl rfl))
                  | exact Or.inr (Or.inr (Or.inr (Or.inl ⟨key, rfl, hkey⟩)))
            rcases q with _ | q'
            · rw [runScript_cold_none env key raw h hkey hb]
              exact closer _ _ (hcp none) hreplay
            · have hseg : ∀ e ∈ queryCallSeg env q', AllowedIface env (some q') e := by
                intro e he
                simp only [queryCallSeg, List.mem_cons, List.not_mem_nil, or_false] at he
                rcases he with rfl | rfl | rfl <;>
                  first
                    | exact Or.inl rfl
                    | exact Or.inr (Or.inr (Or.inr (Or.inr ⟨q', rfl, rfl⟩)))
              rcases hr : env.llmFn (env.retrieveFn q') [] q' with err | ans
              · rw [runScript_cold_err env key raw h q' err hkey hb hr]
                refine closer _ _ (closer _ _ (closer _ _ (hcp (some q')) hreplay) hseg) ?_
                intro e he
                simp only [errTail, List.mem_cons, List.not_mem_nil, or_false] at he
                rcases he with rfl | rfl <;> exact Or.inl rfl
              · rw [runScript_cold_ok env key raw h q' ans hkey hb hr]
                refine closer _ _ (closer _ _ (closer _ _ (hcp (some q')) hreplay) hseg) ?_
                intro e he
                simp only [okTail, List.mem_cons] at he
                rcases he with rfl | rfl | he
                · exact Or.inl rfl
                · exact Or.inl rfl
                · rcases mem_sourceFold he with ⟨s1, rfl⟩ | ⟨s1, l1, rfl⟩ <;>
                    exact Or.inl rfl
    rcases s with _ | h
    · rw [runScript_none_session]
      exact aux []
    · exact aux h

/-- Closed instance of `C8_external_interfaces` at a concrete run. -/
theorem C8_external_interfaces_witness :
    AllowedIface envOk (some "q")
      (Effect.llmCall [⟨"chunk", [("source", "hb")]⟩] [] "q") :=
  C8_external_interfaces envOk true (some []) (some "q")
    (Effect.llmCall [⟨"chunk", [("source", "hb")]⟩] [] "q") (by decide)

end EChat
